import Mathlib

/-!
Shallow embedding of the abstract-interpretation core found in
`src/vm/abs_state_regs.c`: the constant-tracking abstract domain over an
11-register file, its join, the entry/unreachable constructors, the two
transfer functions (`abs_execute`, `abs_execute_assume`) and the two
safety predicates (`abs_bounds_fail`, `abs_divzero_fail`).

Machine integers are modelled as `Nat` (unsigned 64/32-bit values, kept
below `2^64`/`2^32` wherever the C code truncates) and `Int` (the signed
16-bit `offset` and 32-bit `imm` instruction fields).  Register indices
are `Fin 11`, matching the external decoder's contract that register
fields lie in 0..10.
-/

namespace EbpfVerifier

/-- C conversion `(uint64_t)x` of a signed value: two's-complement value
modulo `2^64`, as a natural number. -/
def toU64 (x : Int) : Nat := (x % (2 ^ 64 : Int)).toNat

/-- C conversion `(uint32_t)x` of a signed value: two's-complement value
modulo `2^32`, as a natural number. -/
def toU32 (x : Int) : Nat := (x % (2 ^ 32 : Int)).toNat

/-- `static uint32_t u32(uint64_t x)` from `abs_state_regs.c`: truncation
of a 64-bit value to its low 32 bits. -/
def u32 (x : Nat) : Nat := x % 2 ^ 32

/-- One register's abstract cell, `struct abs_dom_value` (declared in
`abs_dom.h`, used throughout `abs_state_regs.c`): a `known` flag plus a
64-bit `value` field.  The struct layout matters: the C code reads and
writes the `value` field independently of `known`, so the embedding keeps
the boolean-plus-value pair rather than an option type. -/
structure AbsDomValue where
  known : Bool
  value : Nat
  deriving DecidableEq, Repr

/-- `struct abs_state`: an 11-slot register file plus the `bot`
(unreachable) flag. -/
structure AbsState where
  reg : Fin 11 → AbsDomValue
  bot : Bool

instance : DecidableEq AbsState := fun a b =>
  decidable_of_iff (a.reg = b.reg ∧ a.bot = b.bot)
    ⟨fun h => by cases a; cases b; cases h.1; cases h.2; rfl,
     fun h => by cases h; exact ⟨rfl, rfl⟩⟩

/-- Modelled from the spec: `abs_top`, the top abstract value exported by
the abstract-domain header `abs_dom.h` (not under `src/`); `known = false`
denotes "any value possible", the `value` field is immaterial (0 here). -/
def abs_top : AbsDomValue := ⟨false, 0⟩

/-- Modelled from the spec (§4.1): `abs_const_join` from the
abstract-domain module (not under `src/`): if both cells are known and
equal the result is that known value, otherwise top. -/
def abs_const_join (a b : AbsDomValue) : AbsDomValue :=
  if a.known && b.known && a.value == b.value then a else abs_top

/-- The decoded instruction record `struct ebpf_inst` (external decoder
contract, spec §6): 8-bit opcode, 4-bit register fields constrained to
0..10, signed 16-bit offset, signed 32-bit immediate. -/
structure EbpfInst where
  opcode : Nat
  dst : Fin 11
  src : Fin 11
  offset : Int
  imm : Int
  deriving DecidableEq, Repr

/-! Opcode encodings.  Modelled from the spec (§6) and the standard eBPF
instruction-set encoding used by the decoder header `ebpf.h` (not under
`src/`): the low 3 opcode bits are the instruction class, bit 3 selects a
register source operand, and for ALU/JMP classes the high 4 bits are the
operation. -/

def EBPF_CLS_MASK : Nat := 0x07
def EBPF_ALU_OP_MASK : Nat := 0xf0
def EBPF_SRC_REG : Nat := 0x08

def EBPF_CLS_LD : Nat := 0x00
def EBPF_CLS_LDX : Nat := 0x01
def EBPF_CLS_ST : Nat := 0x02
def EBPF_CLS_STX : Nat := 0x03
def EBPF_CLS_ALU : Nat := 0x04
def EBPF_CLS_JMP : Nat := 0x05
def EBPF_CLS_ALU64 : Nat := 0x07

def EBPF_OP_LDXW : Nat := 0x61
def EBPF_OP_LDXH : Nat := 0x69
def EBPF_OP_LDXB : Nat := 0x71
def EBPF_OP_LDXDW : Nat := 0x79
def EBPF_OP_STW : Nat := 0x62
def EBPF_OP_STH : Nat := 0x6a
def EBPF_OP_STB : Nat := 0x72
def EBPF_OP_STDW : Nat := 0x7a
def EBPF_OP_STXW : Nat := 0x63
def EBPF_OP_STXH : Nat := 0x6b
def EBPF_OP_STXB : Nat := 0x73
def EBPF_OP_STXDW : Nat := 0x7b

def EBPF_OP_LDDW : Nat := 0x18
def EBPF_OP_CALL : Nat := 0x85
def EBPF_OP_EXIT : Nat := 0x95

def EBPF_OP_MOV_IMM : Nat := 0xb4
def EBPF_OP_MOV_REG : Nat := 0xbc
def EBPF_OP_MOV64_IMM : Nat := 0xb7
def EBPF_OP_MOV64_REG : Nat := 0xbf

def EBPF_OP_DIV_IMM : Nat := 0x34
def EBPF_OP_DIV_REG : Nat := 0x3c
def EBPF_OP_DIV64_IMM : Nat := 0x37
def EBPF_OP_DIV64_REG : Nat := 0x3f
def EBPF_OP_MOD_IMM : Nat := 0x94
def EBPF_OP_MOD_REG : Nat := 0x9c
def EBPF_OP_MOD64_IMM : Nat := 0x97
def EBPF_OP_MOD64_REG : Nat := 0x9f

def EBPF_OP_JEQ_IMM : Nat := 0x15
def EBPF_OP_JEQ_REG : Nat := 0x1d
def EBPF_OP_JNE_IMM : Nat := 0x55
def EBPF_OP_JNE_REG : Nat := 0x5d
def EBPF_OP_JGE_IMM : Nat := 0x35

/-- `abs_initialize_entry`: sets all 11 registers to `abs_top`.  The `bot`
flag is not written by the C function, so it is carried over unchanged. -/
def abs_initialize_entry (state : AbsState) : AbsState :=
  { state with reg := fun _ => abs_top }

/-- `abs_initialize_unreached`: sets `bot = true`; registers are left as
they are. -/
def abs_initialize_unreached (state : AbsState) : AbsState :=
  { state with bot := true }

/-- `abs_join(state, other)`: if the accumulator is bottom the whole of
`other` is copied over it; otherwise registers 1..10 are joined per-value
(register 0 is skipped) and `other.bot` is never consulted. -/
def abs_join (state other : AbsState) : AbsState :=
  if state.bot then other
  else
    { state with
      reg := fun r =>
        if 1 ≤ (r : Nat) then abs_const_join (state.reg r) (other.reg r)
        else state.reg r }

/-- `static int access_width(uint8_t opcode)`: byte width of the memory
access an opcode performs, `-1` for non-memory opcodes. -/
def access_width (opcode : Nat) : Int :=
  if opcode = EBPF_OP_LDXB ∨ opcode = EBPF_OP_STB ∨ opcode = EBPF_OP_STXB then 1
  else if opcode = EBPF_OP_LDXH ∨ opcode = EBPF_OP_STH ∨ opcode = EBPF_OP_STXH then 2
  else if opcode = EBPF_OP_LDXW ∨ opcode = EBPF_OP_STW ∨ opcode = EBPF_OP_STXW then 4
  else if opcode = EBPF_OP_LDXDW ∨ opcode = EBPF_OP_STDW ∨ opcode = EBPF_OP_STXDW then 8
  else -1

/-- The `is_load` computation inside `abs_bounds_fail`: class is LD or
LDX. -/
def is_load_op (opcode : Nat) : Bool :=
  (opcode &&& EBPF_CLS_MASK == EBPF_CLS_LD) || (opcode &&& EBPF_CLS_MASK == EBPF_CLS_LDX)

/-- The address register used by `abs_bounds_fail`: the source register
for loads, the destination register for stores. -/
def addr_reg (inst : EbpfInst) : Fin 11 :=
  if is_load_op inst.opcode then inst.src else inst.dst

/-- `abs_bounds_fail(state, inst, pc, errmsg)` without the error-message
plumbing: `true` means the bounds check fails.  `STACK_SIZE` is the fixed
stack-size constant from `ubpf_int.h` (not under `src/`), passed here as
a parameter.  The C function receives the abstract state but never reads
it; the parameter is kept for fidelity. -/
def abs_bounds_fail (STACK_SIZE : Int) (state : AbsState) (inst : EbpfInst) : Bool :=
  let width := access_width inst.opcode
  if width ≤ 0 then false
  else
    let r := addr_reg inst
    if (r : Nat) = 10 then
      decide (inst.offset + width > 0 ∨ inst.offset < -STACK_SIZE)
    else if (r : Nat) = 1 then
      decide (inst.offset < 0 ∨ inst.offset + width > 4096)
    else true

/-- `abs_divzero_fail(state, inst, pc, errmsg)` without the error-message
plumbing: `true` means the division-by-zero check fails.  Note the C code
masks the opcode with `EBPF_ALU_OP_MASK` (0xf0) only — the instruction
class bits are not examined. -/
def abs_divzero_fail (state : AbsState) (inst : EbpfInst) : Bool :=
  let dv := inst.opcode &&& EBPF_ALU_OP_MASK == EBPF_OP_DIV64_REG &&& EBPF_ALU_OP_MASK
  let md := inst.opcode &&& EBPF_ALU_OP_MASK == EBPF_OP_MOD64_REG &&& EBPF_ALU_OP_MASK
  if dv || md then
    let is64 := inst.opcode &&& EBPF_CLS_MASK == EBPF_CLS_ALU64
    if !(state.reg inst.src).known
        || (is64 && (state.reg inst.src).value == 0)
        || (!is64 && u32 (state.reg inst.src).value == 0) then
      true
    else false
  else false

/-- `static bool is_mov(uint8_t opcode)`. -/
def is_mov (opcode : Nat) : Bool :=
  opcode == EBPF_OP_MOV64_IMM || opcode == EBPF_OP_MOV64_REG
    || opcode == EBPF_OP_MOV_IMM || opcode == EBPF_OP_MOV_REG

/-- `static bool is_alu(uint8_t opcode)`. -/
def is_alu (opcode : Nat) : Bool :=
  (opcode &&& EBPF_CLS_MASK == EBPF_CLS_ALU) || (opcode &&& EBPF_CLS_MASK == EBPF_CLS_ALU64)

/-- `abs_execute(to, from, inst, imm)`: copy `from` into a scratch state,
apply the instruction's effect, and join the scratch state into `to`.
`do_const_alu` is the external concrete-ALU evaluator (declared in
`abs_dom.h`/`abs_interp.h`, not under `src/`), passed as a parameter.
The LDDW arm writes only the `value` field, exactly as the C does. -/
def abs_execute (do_const_alu : Nat → Int → Nat → Nat → Nat)
    (to_ from_ : AbsState) (inst : EbpfInst) (imm : Int) : AbsState :=
  let state :=
    if inst.opcode = EBPF_OP_LDDW then
      { from_ with
        reg := Function.update from_.reg inst.dst
          { from_.reg inst.dst with
            value := toU32 inst.imm ||| (toU64 imm <<< 32) % 2 ^ 64 } }
    else if inst.opcode = EBPF_OP_CALL then
      { from_ with
        reg := fun r =>
          if (r : Nat) ≤ 5 then { from_.reg r with known := false } else from_.reg r }
    else if ¬ is_alu inst.opcode then
      from_
    else if inst.opcode &&& EBPF_SRC_REG ≠ 0 ∧ ¬ (from_.reg inst.src).known then
      { from_ with
        reg := Function.update from_.reg inst.dst
          { from_.reg inst.dst with known := false } }
    else if ¬ (from_.reg inst.dst).known ∧ ¬ is_mov inst.opcode then
      { from_ with
        reg := Function.update from_.reg inst.dst
          { from_.reg inst.dst with known := false } }
    else
      { from_ with
        reg := Function.update from_.reg inst.dst
          ⟨true, do_const_alu inst.opcode inst.imm
                   (from_.reg inst.dst).value (from_.reg inst.src).value⟩ }
  abs_join to_ state

/-- `abs_execute_assume(to, from, inst, taken)`: refine the scratch copy
of `from` using the branch outcome, then join it into `to`.  The
register-equality arms copy the source register's stored `value` field
without consulting its `known` flag, exactly as the C does. -/
def abs_execute_assume (to_ from_ : AbsState) (inst : EbpfInst) (taken : Bool) : AbsState :=
  let s1 :=
    if (taken && inst.opcode == EBPF_OP_JEQ_IMM)
        || (!taken && inst.opcode == EBPF_OP_JNE_IMM) then
      { from_ with reg := Function.update from_.reg inst.dst ⟨true, toU64 inst.imm⟩ }
    else from_
  let s2 :=
    if (taken && inst.opcode == EBPF_OP_JEQ_REG)
        || (!taken && inst.opcode == EBPF_OP_JNE_REG) then
      { s1 with reg := Function.update s1.reg inst.dst ⟨true, (s1.reg inst.src).value⟩ }
    else s1
  abs_join to_ s2

/-- A concrete register assignment is covered by an abstract state when
every known register holds exactly the recorded constant (spec §8, "Join
soundness" sense of matching). -/
def concMatches (c : Fin 11 → Nat) (s : AbsState) : Prop :=
  ∀ i : Fin 11, (s.reg i).known = true → c i = (s.reg i).value

instance (c : Fin 11 → Nat) (s : AbsState) : Decidable (concMatches c s) := by
  unfold concMatches; infer_instance

/-- The all-top reachable state (what the entry constructor produces on a
reachable input). -/
def stTop : AbsState := ⟨fun _ => abs_top, false⟩

/-- A bottom accumulator whose register contents are arbitrary garbage. -/
def stBot : AbsState := ⟨fun _ => ⟨true, 7⟩, true⟩

/-- A reachable state with register 1 known to be 5 and all other
registers top. -/
def stAcc5 : AbsState := ⟨fun i => if i = 1 then ⟨true, 5⟩ else abs_top, false⟩

/-- A reachable state whose register 4 is unknown but carries the stale
stored value 42 in its `value` field, as happens after imprecise joins. -/
def stG : AbsState := ⟨fun i => if i = 4 then ⟨false, 42⟩ else abs_top, false⟩

/-- A reachable state with register 3 known to be `v` and all other
registers top. -/
def stK (v : Nat) : AbsState := ⟨fun i => if i = 3 then ⟨true, v⟩ else abs_top, false⟩

end EbpfVerifier

namespace EbpfVerifier

/-! Claim theorems. -/

/-- Claim C1 (code bug evidenced at a failing input): the LDDW arm of
`abs_execute` writes only the `value` field of the destination register,
so a destination that is top in `from` stays top (`known = false`) in the
scratch state, contradicting the claim that the destination becomes
known.  Here `from` is all-top, the instruction is LDDW with immediate 1
and secondary immediate 1: the resulting destination cell is
`⟨false, 1 + 2^32⟩`, still unknown. -/
theorem lddw_keeps_unknown_flag :
    (stTop.reg 0).known = false
      ∧ (abs_execute (fun _ _ _ _ => 0) stBot stTop ⟨EBPF_OP_LDDW, 0, 0, 0, 1⟩ 1).reg 0
          = ⟨false, 1 + 2 ^ 32⟩ := by decide

/-- Claim C2: on a taken register-equals-register jump (and on a
not-taken register-not-equals-register jump), `abs_execute_assume` marks
the destination register known and copies the source register's stored
`value` field even when the source register is unknown; concretely, for
the state `stG` (source register 4 unknown with stale stored value 42)
the concrete register assignment that is constant 5 matches `stG` and
satisfies the taken equality, yet fails to match the refined output
state, which asserts the destination equals 42. -/
theorem assume_eq_reg_copies_unknown_value
    (from_ to_ : AbsState) (d s : Fin 11) (off imm : Int)
    (hsrc : (from_.reg s).known = false) (hbot : to_.bot = true) :
    ((abs_execute_assume to_ from_ ⟨EBPF_OP_JEQ_REG, d, s, off, imm⟩ true).reg d
        = ⟨true, (from_.reg s).value⟩
      ∧ (abs_execute_assume to_ from_ ⟨EBPF_OP_JNE_REG, d, s, off, imm⟩ false).reg d
        = ⟨true, (from_.reg s).value⟩)
      ∧ ((stG.reg 4).known = false
        ∧ concMatches (fun _ => 5) stG
        ∧ (fun _ => (5 : Nat)) (2 : Fin 11) = (fun _ => (5 : Nat)) (4 : Fin 11)
        ∧ ¬ concMatches (fun _ => 5)
            (abs_execute_assume stBot stG ⟨EBPF_OP_JEQ_REG, 2, 4, 0, 0⟩ true)) := by
  constructor
  · constructor
    · simp [abs_execute_assume, abs_join, hbot, EBPF_OP_JEQ_IMM, EBPF_OP_JNE_IMM,
        EBPF_OP_JEQ_REG, EBPF_OP_JNE_REG]
    · simp [abs_execute_assume, abs_join, hbot, EBPF_OP_JEQ_IMM, EBPF_OP_JNE_IMM,
        EBPF_OP_JEQ_REG, EBPF_OP_JNE_REG]
  · decide

/-- Witness for C2 at concrete inputs. -/
theorem assume_eq_reg_copies_unknown_value_witness :
    (stG.reg 4).known = false ∧ stBot.bot = true
      ∧ (abs_execute_assume stBot stG ⟨EBPF_OP_JEQ_REG, 2, 4, 0, 0⟩ true).reg 2
          = ⟨true, 42⟩ :=
  ⟨rfl, rfl, by
    have h := (assume_eq_reg_copies_unknown_value stG stBot 2 4 0 0 rfl rfl).1.1
    simpa using h⟩

/-- Claim C3 (code bug evidenced at failing inputs): `abs_divzero_fail`
masks the opcode with `EBPF_ALU_OP_MASK` (0xf0) only and never checks the
instruction class, so jump-class opcodes whose operation bits coincide
with the division or modulo pattern are flagged: `JGE_IMM` (0x35, a
conditional jump) and `EXIT` (0x95) both produce a division-by-zero
failure on the all-top state, although neither is an ALU instruction. -/
theorem divzero_flags_non_alu_classes :
    EBPF_OP_JGE_IMM &&& EBPF_CLS_MASK = EBPF_CLS_JMP
      ∧ is_alu EBPF_OP_JGE_IMM = false
      ∧ abs_divzero_fail stTop ⟨EBPF_OP_JGE_IMM, 0, 0, 0, 0⟩ = true
      ∧ is_alu EBPF_OP_EXIT = false
      ∧ abs_divzero_fail stTop ⟨EBPF_OP_EXIT, 0, 0, 0, 0⟩ = true := by decide

/-- Counterexample for C4: `abs_initialize_entry` never writes the `bot`
flag, so on the bottom input `stBot` the flag stays `true` after the
call, refuting the claim that the result is reachable for every input. -/
theorem initialize_entry_keeps_bot_counterexample :
    stBot.bot = true ∧ ¬ ((abs_initialize_entry stBot).bot = false) := by decide

/-- Claim C4 (amended): `abs_initialize_entry` sets all 11 registers to
top and carries the `bot` flag over unchanged — in particular a
reachable input yields a reachable all-top state. -/
theorem initialize_entry_sets_regs_top_preserves_bot (s : AbsState) :
    (∀ i : Fin 11, (abs_initialize_entry s).reg i = abs_top)
      ∧ (abs_initialize_entry s).bot = s.bot :=
  ⟨fun _ => rfl, rfl⟩

/-- Counterexample for C5: joining a bottom `other` (here `stBot`, whose
garbage registers claim the constant 7) into the reachable accumulator
`stAcc5` does not leave the accumulator unchanged: register 1 collapses
from known 5 to top because `abs_join` never consults `other.bot`. -/
theorem join_bottom_other_changes_accumulator :
    stBot.bot = true ∧ stAcc5.bot = false
      ∧ abs_join stAcc5 stBot ≠ stAcc5 := by decide

/-- Claim C5 (amended): bottom is a left identity of `abs_join` — joining
any state into a bottom accumulator yields exactly that state, including
its reachability flag.  (Joining a bottom `other` into a reachable
accumulator is not the identity: the per-register join over registers
1–10 is applied using `other`'s register contents regardless of its
reachability flag.) -/
theorem join_bottom_accumulator_identity (s t : AbsState) (h : t.bot = true) :
    abs_join t s = s := by
  simp [abs_join, h]

/-- Witness for C5 at concrete inputs. -/
theorem join_bottom_accumulator_identity_witness :
    stBot.bot = true ∧ abs_join stBot stTop = stTop :=
  ⟨rfl, join_bottom_accumulator_identity stTop stBot rfl⟩

/-- Claim C6: for a memory instruction whose address register is the
frame pointer (register 10), `abs_bounds_fail` reports no failure exactly
when the signed offset plus the access width is at most 0 and the offset
is at least the negative of the stack size. -/
theorem bounds_fail_stack_iff (STACK_SIZE : Int) (st : AbsState) (inst : EbpfInst)
    (w : Int) (hw : access_width inst.opcode = w) (hpos : 0 < w)
    (hr : (addr_reg inst : Nat) = 10) :
    abs_bounds_fail STACK_SIZE st inst = false
      ↔ inst.offset + w ≤ 0 ∧ -STACK_SIZE ≤ inst.offset := by
  simp only [abs_bounds_fail, hw, hr]
  rw [if_neg (by omega : ¬ w ≤ 0)]
  simp only [if_true, decide_eq_false_iff_not]
  omega

/-- Witness for C6: an 8-byte store through register 10 at offset −8
passes the bounds check (stack size 512). -/
theorem bounds_fail_stack_iff_witness :
    access_width EBPF_OP_STXDW = 8 ∧ (0 : Int) < 8
      ∧ (addr_reg ⟨EBPF_OP_STXDW, 10, 0, -8, 0⟩ : Nat) = 10
      ∧ abs_bounds_fail 512 stTop ⟨EBPF_OP_STXDW, 10, 0, -8, 0⟩ = false :=
  ⟨by decide, by decide, by decide,
    (bounds_fail_stack_iff 512 stTop ⟨EBPF_OP_STXDW, 10, 0, -8, 0⟩ 8
      (by decide) (by decide) (by decide)).mpr (by decide)⟩

end EbpfVerifier

namespace EbpfVerifier

/-- Claim C7: `abs_bounds_fail` on a memory instruction whose address
register is register 1 fails exactly when the offset is negative or
offset plus width exceeds 4096; a memory instruction through any other
address register (neither 1 nor 10) always fails; and an instruction
whose opcode is not a memory instruction (access width −1) never fails. -/
theorem bounds_fail_ctx_other_nonmem :
    (∀ (STACK_SIZE : Int) (st : AbsState) (inst : EbpfInst) (w : Int),
        access_width inst.opcode = w → 0 < w → (addr_reg inst : Nat) = 1 →
        (abs_bounds_fail STACK_SIZE st inst = true
          ↔ inst.offset < 0 ∨ inst.offset + w > 4096))
      ∧ (∀ (STACK_SIZE : Int) (st : AbsState) (inst : EbpfInst) (w : Int),
          access_width inst.opcode = w → 0 < w →
          (addr_reg inst : Nat) ≠ 1 → (addr_reg inst : Nat) ≠ 10 →
          abs_bounds_fail STACK_SIZE st inst = true)
      ∧ (∀ (STACK_SIZE : Int) (st : AbsState) (inst : EbpfInst),
          access_width inst.opcode = -1 →
          abs_bounds_fail STACK_SIZE st inst = false) := by
  refine ⟨?_, ?_, ?_⟩
  · intro STACK_SIZE st inst w hw hpos hr
    simp only [abs_bounds_fail, hw, hr]
    rw [if_neg (by omega : ¬ w ≤ 0), if_neg (by omega : ¬ (1 : Nat) = 10)]
    simp only [if_true, decide_eq_true_eq]
  · intro STACK_SIZE st inst w hw hpos hr1 hr10
    simp only [abs_bounds_fail, hw]
    rw [if_neg (by omega : ¬ w ≤ 0), if_neg hr10, if_neg hr1]
  · intro STACK_SIZE st inst hw
    simp only [abs_bounds_fail, hw]
    rw [if_pos (by omega : (-1 : Int) ≤ 0)]

/-- Witness for C7: a 4-byte load through register 1 at offset 4092
passes, a 4-byte store through register 3 fails, and the EXIT opcode (not
a memory instruction) never fails. -/
theorem bounds_fail_ctx_other_nonmem_witness :
    abs_bounds_fail 512 stTop ⟨EBPF_OP_LDXW, 0, 1, 4092, 0⟩ = false
      ∧ abs_bounds_fail 512 stTop ⟨EBPF_OP_STXW, 3, 0, 0, 0⟩ = true
      ∧ abs_bounds_fail 512 stTop ⟨EBPF_OP_EXIT, 0, 0, 0, 0⟩ = false := by
  have h1 := bounds_fail_ctx_other_nonmem.1 512 stTop ⟨EBPF_OP_LDXW, 0, 1, 4092, 0⟩ 4
    (by decide) (by decide) (by decide)
  have h2 := bounds_fail_ctx_other_nonmem.2.1 512 stTop ⟨EBPF_OP_STXW, 3, 0, 0, 0⟩ 4
    (by decide) (by decide) (by decide) (by decide)
  have h3 := bounds_fail_ctx_other_nonmem.2.2 512 stTop ⟨EBPF_OP_EXIT, 0, 0, 0, 0⟩
    (by decide)
  exact ⟨by revert h1; decide, h2, h3⟩

/-- Claim C8: for register-operand division/modulo instructions,
`abs_divzero_fail` fails exactly when the source register is unknown or
known and zero under the operation's width: the 64-bit opcodes compare
the full 64-bit value, the 32-bit opcodes compare only the low 32 bits. -/
theorem divzero_reg_div_mod_iff :
    (∀ (st : AbsState) (d s : Fin 11) (off imm : Int) (op : Nat),
        op = EBPF_OP_DIV64_REG ∨ op = EBPF_OP_MOD64_REG →
        (abs_divzero_fail st ⟨op, d, s, off, imm⟩ = true
          ↔ (st.reg s).known = false
            ∨ ((st.reg s).known = true ∧ (st.reg s).value = 0)))
      ∧ (∀ (st : AbsState) (d s : Fin 11) (off imm : Int) (op : Nat),
          op = EBPF_OP_DIV_REG ∨ op = EBPF_OP_MOD_REG →
          (abs_divzero_fail st ⟨op, d, s, off, imm⟩ = true
            ↔ (st.reg s).known = false
              ∨ ((st.reg s).known = true ∧ u32 (st.reg s).value = 0))) := by
  have f1 : ((63 : Nat) &&& 240) = 48 := by decide
  have f2 : ((159 : Nat) &&& 240) = 144 := by decide
  have f3 : ((60 : Nat) &&& 240) = 48 := by decide
  have f4 : ((156 : Nat) &&& 240) = 144 := by decide
  have g1 : ((63 : Nat) &&& 7) = 7 := by decide
  have g2 : ((159 : Nat) &&& 7) = 7 := by decide
  have g3 : ((60 : Nat) &&& 7) = 4 := by decide
  have g4 : ((156 : Nat) &&& 7) = 4 := by decide
  constructor
  · intro st d s off imm op hop
    rcases hop with h | h <;> subst h <;>
      cases hk : (st.reg s).known <;>
        simp [abs_divzero_fail, EBPF_OP_DIV64_REG, EBPF_OP_MOD64_REG,
          EBPF_OP_DIV_REG, EBPF_OP_MOD_REG, EBPF_ALU_OP_MASK, EBPF_CLS_MASK,
          EBPF_CLS_ALU64, hk, f1, f2, f3, f4, g1, g2, g3, g4]
  · intro st d s off imm op hop
    rcases hop with h | h <;> subst h <;>
      cases hk : (st.reg s).known <;>
        simp [abs_divzero_fail, EBPF_OP_DIV64_REG, EBPF_OP_MOD64_REG,
          EBPF_OP_DIV_REG, EBPF_OP_MOD_REG, EBPF_ALU_OP_MASK, EBPF_CLS_MASK,
          EBPF_CLS_ALU64, hk, f1, f2, f3, f4, g1, g2, g3, g4]

/-- Witness for C8: a known divisor `0x100000000` (zero in the low 32
bits, nonzero overall) fails under the 32-bit division class and passes
under the 64-bit one. -/
theorem divzero_reg_div_mod_iff_witness :
    abs_divzero_fail (stK (2 ^ 32)) ⟨EBPF_OP_DIV_REG, 0, 3, 0, 0⟩ = true
      ∧ abs_divzero_fail (stK (2 ^ 32)) ⟨EBPF_OP_DIV64_REG, 0, 3, 0, 0⟩ = false := by
  have h32 := divzero_reg_div_mod_iff.2 (stK (2 ^ 32)) 0 3 0 0 EBPF_OP_DIV_REG (Or.inl rfl)
  have h64 := divzero_reg_div_mod_iff.1 (stK (2 ^ 32)) 0 3 0 0 EBPF_OP_DIV64_REG (Or.inl rfl)
  exact ⟨h32.mpr (by decide), by revert h64; decide⟩

/-- Claim C9: executing a call instruction from a reachable state into a
bottom accumulator yields the input state with registers 0–5 made
unknown (their stored value fields untouched) and registers 6–10 exactly
preserved; the result is reachable. -/
theorem call_scratches_r0_to_r5
    (dca : Nat → Int → Nat → Nat → Nat) (from_ to_ : AbsState)
    (d s : Fin 11) (off imm imm2 : Int)
    (hfrom : from_.bot = false) (hbot : to_.bot = true) :
    (∀ i : Fin 11, (i : Nat) ≤ 5 →
        ((abs_execute dca to_ from_ ⟨EBPF_OP_CALL, d, s, off, imm⟩ imm2).reg i).known = false
          ∧ ((abs_execute dca to_ from_ ⟨EBPF_OP_CALL, d, s, off, imm⟩ imm2).reg i).value
              = (from_.reg i).value)
      ∧ (∀ i : Fin 11, 6 ≤ (i : Nat) →
          (abs_execute dca to_ from_ ⟨EBPF_OP_CALL, d, s, off, imm⟩ imm2).reg i = from_.reg i)
      ∧ (abs_execute dca to_ from_ ⟨EBPF_OP_CALL, d, s, off, imm⟩ imm2).bot = false := by
  have hstep : abs_execute dca to_ from_ ⟨EBPF_OP_CALL, d, s, off, imm⟩ imm2
      = { from_ with
          reg := fun r =>
            if (r : Nat) ≤ 5 then { from_.reg r with known := false } else from_.reg r } := by
    simp [abs_execute, abs_join, hbot, EBPF_OP_CALL, EBPF_OP_LDDW]
  refine ⟨?_, ?_, ?_⟩
  · intro i hi
    rw [hstep]
    simp [hi]
  · intro i hi
    rw [hstep]
    simp only [if_neg (by omega : ¬ (i : Nat) ≤ 5)]
  · rw [hstep]
    exact hfrom

/-- Witness for C9 at concrete inputs: a call from `stK 9` (register 3
known to be 9, the rest top) leaves register 7 untouched and scratches
register 3 down to unknown while keeping its stored value field. -/
theorem call_scratches_r0_to_r5_witness :
    (abs_execute (fun _ _ _ _ => 0) stBot (stK 9) ⟨EBPF_OP_CALL, 0, 0, 0, 0⟩ 0).reg 7
        = (stK 9).reg 7
      ∧ ((abs_execute (fun _ _ _ _ => 0) stBot (stK 9) ⟨EBPF_OP_CALL, 0, 0, 0, 0⟩ 0).reg 3).known
        = false := by
  have h := call_scratches_r0_to_r5 (fun _ _ _ _ => 0) (stK 9) stBot 0 0 0 0 0 rfl rfl
  exact ⟨h.2.1 7 (by decide), (h.1 3 (by decide)).1⟩

/-- Claim C10: with the destination register top in `from` and a bottom
accumulator, `abs_execute_assume` on a register-equals-immediate jump
with immediate 7 yields destination known 7 on the taken side, the
unchanged state `from` on the not-taken side, and for every opcode other
than the four equality/inequality jump opcodes it refines nothing. -/
theorem assume_jeq_imm_refinement
    (from_ to_ : AbsState) (d s : Fin 11) (off : Int)
    (hd : (from_.reg d).known = false) (hfrom : from_.bot = false) (hbot : to_.bot = true) :
    ((abs_execute_assume to_ from_ ⟨EBPF_OP_JEQ_IMM, d, s, off, 7⟩ true).reg d = ⟨true, 7⟩)
      ∧ abs_execute_assume to_ from_ ⟨EBPF_OP_JEQ_IMM, d, s, off, 7⟩ false = from_
      ∧ (∀ op : Nat, op ≠ EBPF_OP_JEQ_IMM → op ≠ EBPF_OP_JNE_IMM →
          op ≠ EBPF_OP_JEQ_REG → op ≠ EBPF_OP_JNE_REG →
          ∀ (tk : Bool) (imm : Int),
            abs_execute_assume to_ from_ ⟨op, d, s, off, imm⟩ tk = from_) := by
  refine ⟨?_, ?_, ?_⟩
  · simp [abs_execute_assume, abs_join, hbot, EBPF_OP_JEQ_IMM, EBPF_OP_JNE_IMM,
      EBPF_OP_JEQ_REG, EBPF_OP_JNE_REG, toU64]
  · simp [abs_execute_assume, abs_join, hbot, EBPF_OP_JEQ_IMM, EBPF_OP_JNE_IMM,
      EBPF_OP_JEQ_REG, EBPF_OP_JNE_REG]
  · intro op h1 h2 h3 h4 tk imm
    have e1 : (op == EBPF_OP_JEQ_IMM) = false := beq_eq_false_iff_ne.mpr h1
    have e2 : (op == EBPF_OP_JNE_IMM) = false := beq_eq_false_iff_ne.mpr h2
    have e3 : (op == EBPF_OP_JEQ_REG) = false := beq_eq_false_iff_ne.mpr h3
    have e4 : (op == EBPF_OP_JNE_REG) = false := beq_eq_false_iff_ne.mpr h4
    simp [abs_execute_assume, abs_join, hbot, e1, e2, e3, e4]

/-- Witness for C10 at concrete inputs. -/
theorem assume_jeq_imm_refinement_witness :
    (stTop.reg 2).known = false
      ∧ (abs_execute_assume stBot stTop ⟨EBPF_OP_JEQ_IMM, 2, 0, 0, 7⟩ true).reg 2 = ⟨true, 7⟩
      ∧ abs_execute_assume stBot stTop ⟨EBPF_OP_JEQ_IMM, 2, 0, 0, 7⟩ false = stTop :=
  ⟨rfl, (assume_jeq_imm_refinement stTop stBot 2 0 0 rfl rfl rfl).1,
    (assume_jeq_imm_refinement stTop stBot 2 0 0 rfl rfl rfl).2.1⟩

end EbpfVerifier
